import Mathlib

/-!
Shallow embedding of `src/main.py` of foundry-agent-openai-compat-adapter:
an OpenAI-style chat-completions shim over a managed-agent backend.

The backend (Azure AI project client) is opaque; we model its observable
behaviour for one request as a `Backend` record whose fields say, for each
backend call the adapter makes, whether the call succeeds (and with what
data) or raises an exception.  Nondeterministic identifiers (`uuid`) and
timestamps (`datetime.now`) are passed in as parameters.  Exceptions are
modelled with `Except`-style values; FastAPI `HTTPException` is modelled as
an explicit error variant carrying status code and detail.
-/

namespace FoundryAdapter

/-- Model of `Message(BaseModel)`: role and content strings (main.py lines 134-136). -/
structure Message where
  role : String
  content : String
deriving Repr, DecidableEq

/-- Model of `ChatCompletionRequest(BaseModel)` (main.py lines 138-143).
`temperature` and `max_tokens` are accepted but unused by the adapter, so
they are carried only for shape fidelity. -/
structure ChatCompletionRequest where
  model : String
  messages : List Message
  temperature : Option Float := some 1.0
  max_tokens : Option Int := none
  stream : Bool := false

/-- Model of `Choice(BaseModel)` (main.py lines 145-148). -/
structure Choice where
  index : Nat
  message : Message
  finish_reason : String
deriving Repr, DecidableEq

/-- Model of `Delta(BaseModel)` (main.py lines 150-152). -/
structure Delta where
  role : Option String := none
  content : Option String := none
deriving Repr, DecidableEq

/-- Model of `StreamChoice(BaseModel)` (main.py lines 154-157). -/
structure StreamChoice where
  index : Nat
  delta : Delta
  finish_reason : Option String := none
deriving Repr, DecidableEq

/-- Model of `Usage(BaseModel)` (main.py lines 159-162). -/
structure Usage where
  prompt_tokens : Nat
  completion_tokens : Nat
  total_tokens : Nat
deriving Repr, DecidableEq

/-- Model of `ChatCompletionResponse(BaseModel)` (main.py lines 164-170). -/
structure ChatCompletionResponse where
  id : String
  object : String := "chat.completion"
  created : Int
  model : String
  choices : List Choice
  usage : Usage
deriving Repr, DecidableEq

/-- Model of `ChatCompletionStreamResponse(BaseModel)` (main.py lines 172-177). -/
structure ChatCompletionStreamResponse where
  id : String
  object : String := "chat.completion.chunk"
  created : Int
  model : String
  choices : List StreamChoice
deriving Repr, DecidableEq

/-! ### Backend model -/

/-- Result object of `runs.create_and_process` (used at main.py lines 322-331):
only `status` and `last_error` are inspected. -/
structure RunResult where
  status : String
  last_error : String
deriving Repr, DecidableEq

/-- One message of the backend thread as returned by `messages.list`
(main.py lines 334-358).  `text_fragments` models the `.text.value` strings
of the entries of `message.text_messages`, in order. -/
structure ThreadMessage where
  role : String
  text_fragments : List String
deriving Repr, DecidableEq

/-- Observable behaviour of the backend for one request: for each backend
call the adapter makes, either the returned data or the message of the
exception the call raises. -/
structure Backend where
  threads_create : Except String Unit
  messages_create : Except String Unit
  runs_create_and_process : Except String RunResult
  messages_list : Except String (List ThreadMessage)

/-- Trace entry: one backend call attempted by the adapter. -/
inductive BackendCall where
  | threadsCreate
  | messagesCreate
  | runsCreateAndProcess
  | messagesList
deriving Repr, DecidableEq

/-- Outcome of the adapter's `create_chat_completion`: either a returned
`ChatCompletionResponse` or a raised `HTTPException(status_code, detail)`. -/
inductive AdapterResult where
  | response (r : ChatCompletionResponse)
  | httpError (status : Nat) (detail : String)
deriving Repr, DecidableEq

/-! ### Adapter: create_chat_completion (main.py lines 295-415) -/

/-- The `for msg in reversed(request.messages)` scan for the last message
with `role == "user"` (main.py lines 303-308). -/
def findLastUserMessage : List Message → Option String
  | [] => none
  | msg :: rest =>
    match findLastUserMessage rest with
    | some c => some c
    | none => if msg.role = "user" then some msg.content else none

/-- Maximal runs of non-whitespace characters of a character list. -/
def splitRuns : List Char → List (List Char)
  | [] => []
  | c :: rest =>
    let r := splitRuns rest
    if c.isWhitespace then r
    else
      match rest with
      | [] => [[c]]
      | d :: _ =>
        if d.isWhitespace then [c] :: r
        else
          match r with
          | [] => [[c]]
          | w :: ws => (c :: w) :: ws

/-- Python `str.split()` with no separator: split on runs of whitespace,
dropping empty pieces (used at main.py lines 239, 368, 369). -/
def pySplit (s : String) : List String :=
  (splitRuns s.data).map fun cs => { data := cs }

/-- Python `sep.join(pieces)`: pieces interleaved with the separator
(used at main.py line 362 with separator `"\n"`). -/
def pyJoin (sep : String) : List String → String
  | [] => ""
  | [x] => x
  | x :: rest => x ++ sep ++ pyJoin sep rest

/-- The message-extraction loop (main.py lines 343-358): for each thread
message with role "assistant", append its text fragments in order. -/
def extractAssistantFragments : List ThreadMessage → List String
  | [] => []
  | m :: rest =>
    (if m.role = "assistant" then m.text_fragments else []) ++
      extractAssistantFragments rest

/-- Fallback answer substituted when no assistant content is found
(main.py line 365). -/
def apologyNoResponse : String :=
  "I apologize, but I couldn't generate a proper response. Please try again."

/-- The `assistant_response` assembly (main.py lines 360-365):
`"\n".join(assistant_messages)` when the list is non-empty, else the
apology fallback. -/
def assembleAnswer (fragments : List String) : String :=
  if fragments ≠ [] then pyJoin "\n" fragments
  else apologyNoResponse

/-- The degraded response built by the adapter's generic `except` clause
(main.py lines 396-415). -/
def adapterErrorResponse (model rid : String) (created : Int)
    (errMsg : String) : ChatCompletionResponse :=
  { id := "chatcmpl-error-" ++ rid
    created := created
    model := model
    choices := [{ index := 0
                  message := { role := "assistant"
                               content := "I apologize, but an error occurred: " ++ errMsg }
                  finish_reason := "stop" }]
    usage := { prompt_tokens := 0, completion_tokens := 10, total_tokens := 10 } }

/-- The successful response built at main.py lines 367-389, from the last
user text and the assembled assistant answer. -/
def successResponse (model rid : String) (created : Int)
    (lastUser answer : String) : ChatCompletionResponse :=
  { id := "chatcmpl-" ++ rid
    created := created
    model := model
    choices := [{ index := 0
                  message := { role := "assistant", content := answer }
                  finish_reason := "stop" }]
    usage := { prompt_tokens := (pySplit lastUser).length
               completion_tokens := (pySplit answer).length
               total_tokens := (pySplit lastUser).length + (pySplit answer).length } }

/-- Model of `FoundryAgentAdapter.create_chat_completion` (main.py lines 295-415),
returning the outcome together with the trace of backend calls attempted.
Control flow of the source: create thread; scan for the last user message
and raise `HTTPException(400)` on `if not last_user_message` — Python
truthiness, which fires both when no user message exists and when the
extracted content is the empty string (main.py line 310); post the
message; run the agent; raise `HTTPException(500)` if the run status is
"failed"; list the thread messages; assemble the answer and the response.
`except HTTPException: raise` lets the 400/500 escape; any other exception
is converted by the generic `except` clause into `adapterErrorResponse`. -/
def create_chat_completion (req : ChatCompletionRequest) (b : Backend)
    (rid : String) (created : Int) : AdapterResult × List BackendCall :=
  match b.threads_create with
  | .error e =>
    (.response (adapterErrorResponse req.model rid created e), [.threadsCreate])
  | .ok _ =>
    match findLastUserMessage req.messages with
    | none => (.httpError 400 "No user message found", [.threadsCreate])
    | some lastUser =>
      if lastUser = "" then
        (.httpError 400 "No user message found", [.threadsCreate])
      else
      match b.messages_create with
      | .error e =>
        (.response (adapterErrorResponse req.model rid created e),
          [.threadsCreate, .messagesCreate])
      | .ok _ =>
        match b.runs_create_and_process with
        | .error e =>
          (.response (adapterErrorResponse req.model rid created e),
            [.threadsCreate, .messagesCreate, .runsCreateAndProcess])
        | .ok run =>
          if run.status = "failed" then
            (.httpError 500 ("Agent run failed: " ++ run.last_error),
              [.threadsCreate, .messagesCreate, .runsCreateAndProcess])
          else
            match b.messages_list with
            | .error e =>
              (.response (adapterErrorResponse req.model rid created e),
                [.threadsCreate, .messagesCreate, .runsCreateAndProcess,
                  .messagesList])
            | .ok msgs =>
              let answer := assembleAnswer (extractAssistantFragments msgs)
              (.response (successResponse req.model rid created lastUser answer),
                [.threadsCreate, .messagesCreate, .runsCreateAndProcess,
                  .messagesList])

/-! ### Stream emulator: create_streaming_response (main.py lines 213-293)

The async generator is modelled as the finite list of events it yields.
Each `yield "data: <json>\n\n"` becomes a `StreamEvent.chunk`, and the
terminator `yield "data: [DONE]\n\n"` becomes `StreamEvent.done`. -/

/-- One yielded server-sent event of the stream. -/
inductive StreamEvent where
  | chunk (c : ChatCompletionStreamResponse)
  | done
deriving Repr, DecidableEq

/-- The first chunk with role (main.py lines 224-235). -/
def roleChunk (rid model : String) (created : Int) : ChatCompletionStreamResponse :=
  { id := rid, created := created, model := model
    choices := [{ index := 0
                  delta := { role := some "assistant", content := some "" }
                  finish_reason := none }] }

/-- A content chunk of the word loop (main.py lines 243-254). -/
def wordChunk (rid model : String) (created : Int)
    (chunkContent : String) : ChatCompletionStreamResponse :=
  { id := rid, created := created, model := model
    choices := [{ index := 0
                  delta := { content := some chunkContent }
                  finish_reason := none }] }

/-- The final chunk with finish_reason and empty delta (main.py 260-271). -/
def finalChunk (rid model : String) (created : Int) : ChatCompletionStreamResponse :=
  { id := rid, created := created, model := model
    choices := [{ index := 0, delta := {}, finish_reason := some "stop" }] }

/-- The error chunk of the `except` clause (main.py lines 280-291):
role "assistant", content `"Error: " + str(e)`, finish_reason "stop". -/
def errorChunk (rid model : String) (created : Int)
    (errText : String) : ChatCompletionStreamResponse :=
  { id := rid, created := created, model := model
    choices := [{ index := 0
                  delta := { role := some "assistant"
                             content := some ("Error: " ++ errText) }
                  finish_reason := some "stop" }] }

/-- The per-word contents of the word loop (main.py lines 239-241):
`chunk_content = word + (" " if i < len(words) - 1 else "")`, i.e. every
word carries a trailing space except the last. -/
def wordChunkContents : List String → List String
  | [] => []
  | [w] => [w]
  | w :: rest => (w ++ " ") :: wordChunkContents rest

/-- The event sequence of the generator's success path over the upstream
content text (main.py lines 223-275). -/
def streamSuccessEvents (rid model : String) (created : Int)
    (content : String) : List StreamEvent :=
  .chunk (roleChunk rid model created) ::
    ((wordChunkContents (pySplit content)).map
        fun c => .chunk (wordChunk rid model created c)) ++
    [.chunk (finalChunk rid model created), .done]

/-- The event sequence of the generator's `except` path (main.py 277-293). -/
def streamErrorEvents (rid model : String) (created : Int)
    (errText : String) : List StreamEvent :=
  [.chunk (errorChunk rid model created errText), .done]

/-- The access `response.choices[0].message.content` (main.py line 221).  The adapter
always returns exactly one choice, so the default is never reached. -/
def firstChoiceContent (r : ChatCompletionResponse) : String :=
  match r.choices with
  | c :: _ => c.message.content
  | [] => ""

/-- Model of `FoundryAgentAdapter.create_streaming_response` (main.py 213-293): call
the non-streaming completion, then emit role chunk, word chunks, final
chunk and terminator; if the upstream call raises — in this model, only the
`HTTPException`s the adapter lets escape — the `except` clause emits one
error chunk and the terminator.  Starlette's `HTTPException.__str__` is
`"{status_code}: {detail}"`, which is what `str(e)` interpolates. -/
def create_streaming_response (req : ChatCompletionRequest) (b : Backend)
    (srid : String) (screated : Int) (arid : String) (acreated : Int) :
    List StreamEvent :=
  match (create_chat_completion req b arid acreated).1 with
  | .response r =>
    streamSuccessEvents srid req.model screated (firstChoiceContent r)
  | .httpError status detail =>
    streamErrorEvents srid req.model screated (toString status ++ ": " ++ detail)

/-! ### Request handler: POST /v1/chat/completions (main.py lines 425-573) -/

/-- What the route handler hands to FastAPI: a JSON body with a status, a
propagated `HTTPException` (rendered by FastAPI as an error status with the
detail), or a `StreamingResponse` (status 200) wrapping the event stream. -/
inductive EndpointResult where
  | jsonResp (status : Nat) (body : ChatCompletionResponse)
  | errorResp (status : Nat) (detail : String)
  | streamResp (status : Nat) (events : List StreamEvent)
deriving Repr, DecidableEq

/-- The fail-safe response of the endpoint's generic `except` clause
(main.py lines 537-553).  In this pure model that clause is unreachable
(the adapter never lets a non-HTTP exception escape), but the constructor
is part of the service and is audited under "chat_completion_error". -/
def fallbackResponse (model rid : String) (created : Int) : ChatCompletionResponse :=
  { id := "chatcmpl-failsafe-" ++ rid
    created := created
    model := model
    choices := [{ index := 0
                  message := { role := "assistant"
                               content := "I apologize, but I encountered an error processing your request. Please try again." }
                  finish_reason := "stop" }]
    usage := { prompt_tokens := 10, completion_tokens := 20, total_tokens := 30 } }

/-- Outcome of one handled request: the HTTP-level result, the
`request_type` tags of the audit records persisted (in order), and the
trace of backend calls attempted. -/
structure HandleOutcome where
  result : EndpointResult
  audits : List String
  backendCalls : List BackendCall
deriving Repr, DecidableEq

/-- The `create_chat_completion` endpoint (main.py lines 425-573).
Streaming branch: return a `StreamingResponse` (status 200) at once; the
generator `streaming_with_audit` forwards every event and, when the stream
finishes, persists one audit record tagged "chat_completion_streaming"
(the tag "chat_completion_streaming_error" needs the wrapped generator
itself to raise, which the pure model cannot).  Non-streaming branch: call
the adapter; `except HTTPException: raise` propagates a 400/500 with no
audit; otherwise validate `choices`, persist one audit record tagged
"chat_completion_non_streaming" and return the body with status 200. -/
def handle_chat_completion (req : ChatCompletionRequest) (b : Backend)
    (srid : String) (screated : Int) (arid : String) (acreated : Int) :
    HandleOutcome :=
  if req.stream then
    { result := .streamResp 200
        (create_streaming_response req b srid screated arid acreated)
      audits := ["chat_completion_streaming"]
      backendCalls := (create_chat_completion req b arid acreated).2 }
  else
    match create_chat_completion req b arid acreated with
    | (.response r, calls) =>
      if r.choices.length = 0 then
        { result := .errorResp 500 "Response contained no choices"
          audits := []
          backendCalls := calls }
      else
        { result := .jsonResp 200 r
          audits := ["chat_completion_non_streaming"]
          backendCalls := calls }
    | (.httpError status detail, calls) =>
      { result := .errorResp status detail
        audits := []
        backendCalls := calls }

/-! ### Derived notions used by the statements -/

/-- The content fragment an event contributes to the reassembled text:
the `delta.content` of the chunk's first choice, empty otherwise (this is
what `streaming_with_audit` accumulates, main.py lines 456-464; an empty
fragment contributes nothing either way). -/
def deltaContentOf : StreamEvent → String
  | .chunk c =>
    match c.choices with
    | ch :: _ => ch.delta.content.getD ""
    | [] => ""
  | .done => ""

/-- Concatenation of all content fragments of a stream, in emission order. -/
def concatContents : List StreamEvent → String
  | [] => ""
  | e :: rest => deltaContentOf e ++ concatContents rest

/-- Plain concatenation of a list of strings. -/
def concatAll : List String → String
  | [] => ""
  | s :: rest => s ++ concatAll rest

/-- The shape invariant of §3 of the spec for one response: token usage
adds up and there is exactly one choice, with finish_reason "stop". -/
def responseInvariant (r : ChatCompletionResponse) : Prop :=
  r.usage.total_tokens = r.usage.prompt_tokens + r.usage.completion_tokens ∧
  r.choices.length = 1 ∧
  ∀ c ∈ r.choices, c.finish_reason = "stop"

instance (r : ChatCompletionResponse) : Decidable (responseInvariant r) := by
  unfold responseInvariant; infer_instance

/-! ### Concrete instances used by witnesses and counterexamples -/

/-- A well-formed non-streaming request with one user message. -/
def reqUser : ChatCompletionRequest :=
  { model := "m", messages := [{ role := "user", content := "2+2?" }] }

/-- The same conversation with `stream = true`. -/
def reqUserStream : ChatCompletionRequest := { reqUser with stream := true }

/-- A request whose messages contain no role "user" entry. -/
def reqNoUser : ChatCompletionRequest :=
  { model := "m", messages := [{ role := "system", content := "s" }] }

/-- The same user-less conversation with `stream = true`. -/
def reqNoUserStream : ChatCompletionRequest := { reqNoUser with stream := true }

/-- A benign backend: every call succeeds, the run completes, and the
thread holds one assistant message whose text is "4". -/
def backendOk : Backend :=
  { threads_create := .ok ()
    messages_create := .ok ()
    runs_create_and_process := .ok { status := "completed", last_error := "" }
    messages_list := .ok [{ role := "assistant", text_fragments := ["4"] }] }

/-- A backend whose run terminates with status "failed". -/
def backendRunFailed : Backend :=
  { backendOk with
    runs_create_and_process := .ok { status := "failed", last_error := "boom" } }

/-- A backend whose run call raises an unexpected exception. -/
def backendRunRaises : Backend :=
  { backendOk with runs_create_and_process := .error "socket closed" }

/-- A backend whose completed thread holds two assistant messages, "a" and
"b": the non-streaming answer is then "a\nb". -/
def backendTwoMsgs : Backend :=
  { backendOk with
    messages_list := .ok [{ role := "assistant", text_fragments := ["a"] },
                          { role := "assistant", text_fragments := ["b"] }] }

/-- A backend whose completed thread holds one assistant message carrying a
single empty text fragment. -/
def backendEmptyFragment : Backend :=
  { backendOk with
    messages_list := .ok [{ role := "assistant", text_fragments := [""] }] }

/-! ### Helper lemmas -/

/-- The word-loop contents, characterised without the recursion: every word
but the last gets a trailing space, the last (when present) none. -/
theorem wordChunkContents_eq (ws : List String) :
    wordChunkContents ws = ws.dropLast.map (· ++ " ") ++ ws.getLast?.toList := by
  match ws with
  | [] => rfl
  | [w] => rfl
  | w :: x :: rest =>
    have ih := wordChunkContents_eq (x :: rest)
    simp only [wordChunkContents, ih, List.dropLast_cons₂, List.map_cons,
      List.getLast?_cons_cons, List.cons_append]

theorem concatContents_cons (e : StreamEvent) (l : List StreamEvent) :
    concatContents (e :: l) = deltaContentOf e ++ concatContents l := rfl

theorem deltaContentOf_roleChunk (rid model : String) (created : Int) :
    deltaContentOf (.chunk (roleChunk rid model created)) = "" := rfl

theorem deltaContentOf_wordChunk (rid model : String) (created : Int)
    (c : String) :
    deltaContentOf (.chunk (wordChunk rid model created c)) = c := rfl

theorem deltaContentOf_finalChunk (rid model : String) (created : Int) :
    deltaContentOf (.chunk (finalChunk rid model created)) = "" := rfl

/-- The content fragments of a run of word chunks concatenate to the plain
concatenation of their contents, in front of whatever the tail yields. -/
theorem concat_wordChunks (rid model : String) (created : Int)
    (ws : List String) (tail : List StreamEvent) :
    concatContents
        ((ws.map fun c => StreamEvent.chunk (wordChunk rid model created c)) ++ tail) =
      concatAll ws ++ concatContents tail := by
  induction ws with
  | nil => simp [concatAll, String.empty_append]
  | cons w rest ih =>
    rw [List.map_cons, List.cons_append, concatContents_cons,
      deltaContentOf_wordChunk, ih,
      show concatAll (w :: rest) = w ++ concatAll rest from rfl,
      String.append_assoc]

/-- Concatenating the trailing-space word contents equals the single-space
join of the words. -/
theorem concatAll_wordChunkContents (ws : List String) :
    concatAll (wordChunkContents ws) = pyJoin " " ws := by
  match ws with
  | [] => rfl
  | [w] => simp [wordChunkContents, pyJoin, concatAll]
  | w :: x :: rest =>
    have ih := concatAll_wordChunkContents (x :: rest)
    simp only [wordChunkContents, concatAll, ih, pyJoin, String.append_assoc]

/-- The full success stream reassembles to the single-space join of the
whitespace-split words of the upstream text. -/
theorem concatContents_streamSuccessEvents (rid model : String) (created : Int)
    (content : String) :
    concatContents (streamSuccessEvents rid model created content) =
      pyJoin " " (pySplit content) := by
  have h1 : streamSuccessEvents rid model created content =
      .chunk (roleChunk rid model created) ::
        (((wordChunkContents (pySplit content)).map
            fun c => StreamEvent.chunk (wordChunk rid model created c)) ++
          [.chunk (finalChunk rid model created), .done]) := rfl
  rw [h1, concatContents_cons, deltaContentOf_roleChunk, concat_wordChunks,
    concatAll_wordChunkContents, String.empty_append,
    show concatContents [.chunk (finalChunk rid model created), .done] = ""
      from rfl,
    String.append_empty]

/-- A newline-join of a non-empty fragment list is the empty string exactly
when the list is the single empty fragment. -/
theorem pyJoin_newline_empty_iff (fs : List String) (hne : fs ≠ []) :
    (pyJoin "\n" fs = "" ↔ fs = [""]) := by
  match fs with
  | [] => exact absurd rfl hne
  | [x] =>
    rw [show pyJoin "\n" [x] = x from rfl]
    constructor
    · intro h
      rw [h]
    · intro h
      injection h
  | x :: y :: rest =>
    constructor
    · intro h
      exfalso
      have hl := congrArg String.length h
      rw [show pyJoin "\n" (x :: y :: rest) = x ++ "\n" ++ pyJoin "\n" (y :: rest)
          from rfl] at hl
      simp only [String.length_append] at hl
      rw [show ("\n" : String).length = 1 from rfl] at hl
      rw [show ("" : String).length = 0 from rfl] at hl
      omega
    · intro h
      injection h with h1 h2
      cases h2

/-- The assembled answer is empty exactly when a single empty assistant
fragment was extracted (the apology fallback itself is non-empty). -/
theorem assembleAnswer_empty_iff (fs : List String) :
    (assembleAnswer fs = "" ↔ fs = [""]) := by
  match fs with
  | [] =>
    rw [show assembleAnswer [] = apologyNoResponse from rfl]
    constructor
    · intro h; exact absurd h (by decide)
    · intro h; exact absurd h (by simp)
  | x :: rest =>
    rw [show assembleAnswer (x :: rest) = pyJoin "\n" (x :: rest) from by
      simp [assembleAnswer]]
    exact pyJoin_newline_empty_iff (x :: rest) (by simp)

theorem responseInvariant_successResponse (model rid : String) (created : Int)
    (lastUser answer : String) :
    responseInvariant (successResponse model rid created lastUser answer) := by
  refine ⟨rfl, rfl, ?_⟩
  intro c hc
  simp only [successResponse, List.mem_singleton] at hc
  rw [hc]

theorem responseInvariant_adapterErrorResponse (model rid : String)
    (created : Int) (errMsg : String) :
    responseInvariant (adapterErrorResponse model rid created errMsg) := by
  refine ⟨rfl, rfl, ?_⟩
  intro c hc
  simp only [adapterErrorResponse, List.mem_singleton] at hc
  rw [hc]

theorem responseInvariant_fallbackResponse (model rid : String) (created : Int) :
    responseInvariant (fallbackResponse model rid created) := by
  refine ⟨rfl, rfl, ?_⟩
  intro c hc
  simp only [fallbackResponse, List.mem_singleton] at hc
  rw [hc]

/-- Every response the adapter returns is either the degraded error
response (for some exception message) or the assembled success response
(for the extracted user text and some thread contents). -/
theorem create_chat_completion_response_shape (req : ChatCompletionRequest)
    (b : Backend) (rid : String) (created : Int) (r : ChatCompletionResponse)
    (h : (create_chat_completion req b rid created).1 = .response r) :
    (∃ e, r = adapterErrorResponse req.model rid created e) ∨
    (∃ u msgs, findLastUserMessage req.messages = some u ∧
      r = successResponse req.model rid created u
            (assembleAnswer (extractAssistantFragments msgs))) := by
  rcases b with ⟨tc, mc, rc, ml⟩
  cases tc with
  | error e =>
    simp [create_chat_completion] at h
    exact .inl ⟨e, h.symm⟩
  | ok _ =>
    cases hu : findLastUserMessage req.messages with
    | none => simp [create_chat_completion, hu] at h
    | some u =>
      by_cases hu0 : u = ""
      · simp [create_chat_completion, hu, hu0] at h
      · cases mc with
        | error e =>
          simp [create_chat_completion, hu, hu0] at h
          exact .inl ⟨e, h.symm⟩
        | ok _ =>
          cases rc with
          | error e =>
            simp [create_chat_completion, hu, hu0] at h
            exact .inl ⟨e, h.symm⟩
          | ok run =>
            by_cases hf : run.status = "failed"
            · simp [create_chat_completion, hu, hu0, hf] at h
            · cases ml with
              | error e =>
                simp [create_chat_completion, hu, hu0, hf] at h
                exact .inl ⟨e, h.symm⟩
              | ok msgs =>
                simp [create_chat_completion, hu, hu0, hf] at h
                exact .inr ⟨u, msgs, rfl, h.symm⟩

/-! ### Claim theorems -/

/-- C1, counterexample: for the non-streaming request `reqUser` whose
backend run terminates with status "failed", the handler does not return an
HTTP 200 ChatResponse — the `HTTPException(500)` raised at main.py line 331
passes through both `except HTTPException: raise` clauses, so the outcome
is an HTTP 500 error response. -/
theorem run_failed_counterexample :
    (handle_chat_completion reqUser backendRunFailed "S" 1 "A" 2).result =
      .errorResp 500 "Agent run failed: boom" := rfl

/-- C1 (amended): for every non-streaming request holding a non-empty user
message (an empty one is rejected with 400 by the truthiness check before
the run), when thread creation and message posting succeed and the run
terminates with status "failed", the handler propagates HTTP 500 with
detail "Agent run failed: <last_error>" (and writes no audit record); it
does not return a 200 ChatResponse. -/
theorem run_failed_propagates_http500 (req : ChatCompletionRequest)
    (b : Backend) (srid : String) (screated : Int) (arid : String)
    (acreated : Int) (u : String) (run : RunResult)
    (hstream : req.stream = false)
    (ht : b.threads_create = .ok ())
    (hu : findLastUserMessage req.messages = some u)
    (hu0 : u ≠ "")
    (hm : b.messages_create = .ok ())
    (hr : b.runs_create_and_process = .ok run)
    (hf : run.status = "failed") :
    (handle_chat_completion req b srid screated arid acreated).result =
      .errorResp 500 ("Agent run failed: " ++ run.last_error) ∧
    (handle_chat_completion req b srid screated arid acreated).audits = [] := by
  rcases b with ⟨tc, mc, rc, ml⟩
  cases tc with
  | error e => cases ht
  | ok _ =>
    cases mc with
    | error e => cases hm
    | ok _ =>
      cases rc with
      | error e => cases hr
      | ok run2 =>
        have hrun : run2 = run := by injection hr
        subst hrun
        constructor <;>
          simp [handle_chat_completion, create_chat_completion, hstream, hu,
            hu0, hf]

/-- C1 witness: the amended statement at the concrete failing-run backend. -/
theorem run_failed_propagates_http500_witness :
    (handle_chat_completion reqUser backendRunFailed "S" 1 "A" 2).result =
      .errorResp 500 ("Agent run failed: " ++ "boom") ∧
    (handle_chat_completion reqUser backendRunFailed "S" 1 "A" 2).audits = [] :=
  run_failed_propagates_http500 reqUser backendRunFailed "S" 1 "A" 2 "2+2?"
    { status := "failed", last_error := "boom" } rfl rfl rfl (by decide)
    rfl rfl rfl

/-- C2, counterexample: a request without a user-role message does get
HTTP 400, but a backend call has already been performed: the adapter
creates the thread (main.py line 300) before scanning for the user message
(line 304), so the backend-call trace is not empty. -/
theorem no_user_message_counterexample :
    (handle_chat_completion reqNoUser backendOk "S" 1 "A" 2).result =
      .errorResp 400 "No user message found" ∧
    (handle_chat_completion reqNoUser backendOk "S" 1 "A" 2).backendCalls =
      [.threadsCreate] := ⟨rfl, rfl⟩

/-- C2 (amended): for every non-streaming request whose messages contain no
role "user" entry (and whose thread creation succeeds), the service
responds with HTTP 400, and exactly one backend call — the thread creation
— precedes the failure: no message is posted and no run is started. -/
theorem no_user_message_http400 (req : ChatCompletionRequest) (b : Backend)
    (srid : String) (screated : Int) (arid : String) (acreated : Int)
    (hstream : req.stream = false)
    (ht : b.threads_create = .ok ())
    (hu : findLastUserMessage req.messages = none) :
    (handle_chat_completion req b srid screated arid acreated).result =
      .errorResp 400 "No user message found" ∧
    (handle_chat_completion req b srid screated arid acreated).backendCalls =
      [.threadsCreate] := by
  rcases b with ⟨tc, mc, rc, ml⟩
  cases tc with
  | error e => cases ht
  | ok _ =>
    constructor <;>
      simp [handle_chat_completion, create_chat_completion, hstream, hu]

/-- C2 witness: the amended statement at the concrete user-less request. -/
theorem no_user_message_http400_witness :
    (handle_chat_completion reqNoUser backendOk "T" 3 "B" 4).result =
      .errorResp 400 "No user message found" ∧
    (handle_chat_completion reqNoUser backendOk "T" 3 "B" 4).backendCalls =
      [.threadsCreate] :=
  no_user_message_http400 reqNoUser backendOk "T" 3 "B" 4 rfl rfl rfl

/-- C3, counterexample: the missing-user-message request is a handled
request (outcome: client error), yet zero audit records are persisted —
the `except HTTPException: raise` at main.py lines 528-529 skips
`save_audit_data`, contradicting "exactly one audit record ... no code
path skips auditing". -/
theorem audit_skipped_counterexample :
    (handle_chat_completion reqNoUser backendOk "S" 1 "A" 2).audits = [] := rfl

/-- C3 (amended): every handled request that produces a response body
persists exactly one audit record whose request_type matches the outcome —
"chat_completion_non_streaming" for a non-streaming JSON response,
"chat_completion_streaming" for a completed stream — while the requests
that end in a propagated HTTPException (missing user message → 400, failed
run → 500) persist no audit record at all. -/
theorem audit_records_by_outcome (req : ChatCompletionRequest) (b : Backend)
    (srid : String) (screated : Int) (arid : String) (acreated : Int) :
    (handle_chat_completion req b srid screated arid acreated).audits =
      (match (handle_chat_completion req b srid screated arid acreated).result with
       | .jsonResp _ _ => ["chat_completion_non_streaming"]
       | .streamResp _ _ => ["chat_completion_streaming"]
       | .errorResp _ _ => []) := by
  unfold handle_chat_completion
  cases hs : req.stream with
  | true => simp
  | false =>
    cases hres : create_chat_completion req b arid acreated with
    | mk fst snd =>
      cases fst with
      | response r =>
        by_cases hc : r.choices.length = 0 <;> simp [hc]
      | httpError status detail => simp

/-- C4, counterexample: with a backend whose completed thread holds the
assistant messages "a" and "b", the stream=false answer is "a\nb", but the
stream=true event sequence over the identical messages reassembles to
"a b" — the emulator re-splits on whitespace, so the newline is not
reproduced. -/
theorem streaming_concat_counterexample :
    (create_chat_completion reqUser backendTwoMsgs "A" 2).1 =
      .response (successResponse "m" "A" 2 "2+2?" "a\nb") ∧
    firstChoiceContent (successResponse "m" "A" 2 "2+2?" "a\nb") = "a\nb" ∧
    concatContents
        (create_streaming_response reqUserStream backendTwoMsgs "S" 1 "A" 2) =
      "a b" ∧
    ("a b" : String) ≠ "a\nb" := by decide

/-- C4 (amended): for every streaming request whose upstream completion
succeeds, the event sequence begins with the role-announcing delta and ends
with the finish_reason "stop" delta followed by the terminator, and
concatenating all content fragments in emission order yields the
whitespace-split words of the stream=false answer joined by single spaces
(which equals that answer exactly when it is already single-space
separated, but not in general). -/
theorem streaming_reassembles_word_join (req : ChatCompletionRequest)
    (b : Backend) (srid : String) (screated : Int) (arid : String)
    (acreated : Int) (r : ChatCompletionResponse)
    (h : (create_chat_completion req b arid acreated).1 = .response r) :
    (create_streaming_response req b srid screated arid acreated).head? =
      some (.chunk (roleChunk srid req.model screated)) ∧
    (∃ mid, create_streaming_response req b srid screated arid acreated =
      mid ++ [.chunk (finalChunk srid req.model screated), .done]) ∧
    concatContents (create_streaming_response req b srid screated arid acreated) =
      pyJoin " " (pySplit (firstChoiceContent r)) := by
  have he : create_streaming_response req b srid screated arid acreated =
      streamSuccessEvents srid req.model screated (firstChoiceContent r) := by
    unfold create_streaming_response
    rw [h]
  refine ⟨?_, ⟨?_, ?_⟩⟩
  · rw [he]; rfl
  · refine ⟨.chunk (roleChunk srid req.model screated) ::
      ((wordChunkContents (pySplit (firstChoiceContent r))).map
        fun c => .chunk (wordChunk srid req.model screated c)), ?_⟩
    rw [he]
    rw [show streamSuccessEvents srid req.model screated (firstChoiceContent r) =
        .chunk (roleChunk srid req.model screated) ::
          (((wordChunkContents (pySplit (firstChoiceContent r))).map
              fun c => StreamEvent.chunk (wordChunk srid req.model screated c)) ++
            [.chunk (finalChunk srid req.model screated), .done]) from rfl]
    rw [List.cons_append]
  · rw [he, concatContents_streamSuccessEvents]

/-- C4 witness: the amended statement at the benign backend. -/
theorem streaming_reassembles_word_join_witness :
    (create_streaming_response reqUserStream backendOk "S" 1 "A" 2).head? =
      some (.chunk (roleChunk "S" reqUserStream.model 1)) ∧
    (∃ mid, create_streaming_response reqUserStream backendOk "S" 1 "A" 2 =
      mid ++ [.chunk (finalChunk "S" reqUserStream.model 1), .done]) ∧
    concatContents (create_streaming_response reqUserStream backendOk "S" 1 "A" 2) =
      pyJoin " " (pySplit (firstChoiceContent (successResponse "m" "A" 2 "2+2?" "4"))) :=
  streaming_reassembles_word_join reqUserStream backendOk "S" 1 "A" 2
    (successResponse "m" "A" 2 "2+2?" "4") rfl

/-- C5 (confirmed): over any full answer text, the emulator's success-path
event sequence is exactly: the role-announcing chunk with empty content;
one chunk per whitespace-split word, each word carrying a trailing space
except the last; the terminal chunk with finish_reason "stop" and empty
delta; then the stream-end sentinel — and every chunk of the stream bears
the same id and the same created timestamp. -/
theorem stream_emulator_event_sequence (rid model : String) (created : Int)
    (content : String) :
    streamSuccessEvents rid model created content =
      .chunk { id := rid, created := created, model := model
               choices := [{ index := 0
                             delta := { role := some "assistant", content := some "" }
                             finish_reason := none }] } ::
        ((pySplit content).dropLast.map fun w =>
            .chunk { id := rid, created := created, model := model
                     choices := [{ index := 0
                                   delta := { role := none, content := some (w ++ " ") }
                                   finish_reason := none }] }) ++
        ((pySplit content).getLast?.toList.map fun w =>
            .chunk { id := rid, created := created, model := model
                     choices := [{ index := 0
                                   delta := { role := none, content := some w }
                                   finish_reason := none }] }) ++
        [.chunk { id := rid, created := created, model := model
                  choices := [{ index := 0
                                delta := { role := none, content := none }
                                finish_reason := some "stop" }] },
         .done] ∧
    ∀ c, StreamEvent.chunk c ∈ streamSuccessEvents rid model created content →
      c.id = rid ∧ c.created = created := by
  constructor
  · rw [show streamSuccessEvents rid model created content =
        .chunk (roleChunk rid model created) ::
          (((wordChunkContents (pySplit content)).map
              fun c => StreamEvent.chunk (wordChunk rid model created c)) ++
            [.chunk (finalChunk rid model created), .done]) from rfl,
      wordChunkContents_eq, List.map_append, List.map_map]
    simp only [Function.comp_def, roleChunk, wordChunk, finalChunk,
      List.append_assoc, List.cons_append]
  · intro c hc
    rw [show streamSuccessEvents rid model created content =
        .chunk (roleChunk rid model created) ::
          (((wordChunkContents (pySplit content)).map
              fun c => StreamEvent.chunk (wordChunk rid model created c)) ++
            [.chunk (finalChunk rid model created), .done]) from rfl] at hc
    simp only [List.mem_cons, List.mem_append, List.mem_map,
      List.mem_singleton, List.not_mem_nil, or_false] at hc
    rcases hc with h | ⟨w, _, h⟩ | h | h
    · cases h; exact ⟨rfl, rfl⟩
    · cases h; exact ⟨rfl, rfl⟩
    · cases h; exact ⟨rfl, rfl⟩
    · cases h

/-- C6 (confirmed): whenever the upstream completion call raises — in this
model, the `HTTPException`s the adapter lets escape — the emulator emits
exactly one content chunk, whose content is the "Error: <message>" string
and whose finish_reason is "stop", followed by the terminator event; the
stream always ends with its terminator. -/
theorem upstream_raise_single_error_chunk (req : ChatCompletionRequest)
    (b : Backend) (srid : String) (screated : Int) (arid : String)
    (acreated : Int) (status : Nat) (detail : String)
    (h : (create_chat_completion req b arid acreated).1 =
      .httpError status detail) :
    create_streaming_response req b srid screated arid acreated =
      [.chunk { id := srid, created := screated, model := req.model
                choices := [{ index := 0
                              delta := { role := some "assistant"
                                         content := some ("Error: " ++
                                           (toString status ++ ": " ++ detail)) }
                              finish_reason := some "stop" }] },
       .done] := by
  unfold create_streaming_response
  rw [h]
  rfl

/-- C6 witness: the statement at the user-less streaming request, whose
adapter call raises `HTTPException(400, "No user message found")`. -/
theorem upstream_raise_single_error_chunk_witness :
    create_streaming_response reqNoUserStream backendOk "S" 1 "A" 2 =
      [.chunk { id := "S", created := 1, model := reqNoUserStream.model
                choices := [{ index := 0
                              delta := { role := some "assistant"
                                         content := some ("Error: " ++
                                           (toString 400 ++ ": " ++ "No user message found")) }
                              finish_reason := some "stop" }] },
       .done] :=
  upstream_raise_single_error_chunk reqNoUserStream backendOk "S" 1 "A" 2
    400 "No user message found" rfl

/-- C7 (confirmed): every ChatResponse the service constructs — any
response the adapter returns (which covers the normal path and the
adapter's degraded error response) and the handler's fixed fallback
response — has usage.total_tokens equal to prompt_tokens plus
completion_tokens and exactly one choice, with finish_reason "stop". -/
theorem response_invariants_hold :
    (∀ (req : ChatCompletionRequest) (b : Backend) (rid : String)
        (created : Int) (r : ChatCompletionResponse),
      (create_chat_completion req b rid created).1 = .response r →
        responseInvariant r) ∧
    (∀ (model rid : String) (created : Int),
      responseInvariant (fallbackResponse model rid created)) := by
  constructor
  · intro req b rid created r h
    rcases create_chat_completion_response_shape req b rid created r h with
      ⟨e, rfl⟩ | ⟨u, msgs, _, rfl⟩
    · exact responseInvariant_adapterErrorResponse req.model rid created e
    · exact responseInvariant_successResponse req.model rid created u
        (assembleAnswer (extractAssistantFragments msgs))
  · intro model rid created
    exact responseInvariant_fallbackResponse model rid created

/-- C7 witness: the invariant at a concrete adapter response and at the
fixed fallback response. -/
theorem response_invariants_hold_witness :
    responseInvariant (successResponse "m" "A" 2 "2+2?" "4") ∧
    responseInvariant (fallbackResponse "m" "F" 3) :=
  ⟨response_invariants_hold.1 reqUser backendOk "A" 2
      (successResponse "m" "A" 2 "2+2?" "4") rfl,
   response_invariants_hold.2 "m" "F" 3⟩

/-- C8 (confirmed): whenever an unexpected (non-HTTPException) exception is
raised by any of the adapter's backend steps — thread creation, message
posting, the run, or the message listing (the latter three are reachable
only past the truthiness check, i.e. with a non-empty extracted user text)
— the adapter does not propagate it but returns a ChatResponse with one
finish_reason "stop" choice whose content is the human-readable
"I apologize, but an error occurred: <e>" string, with usage fixed at the
0/10/10 placeholder. -/
theorem unexpected_exception_degraded (req : ChatCompletionRequest)
    (b : Backend) (rid : String) (created : Int) (e : String)
    (hcase :
      b.threads_create = .error e ∨
      (∃ u, b.threads_create = .ok () ∧
        findLastUserMessage req.messages = some u ∧ u ≠ "" ∧
        b.messages_create = .error e) ∨
      (∃ u, b.threads_create = .ok () ∧
        findLastUserMessage req.messages = some u ∧ u ≠ "" ∧
        b.messages_create = .ok () ∧
        b.runs_create_and_process = .error e) ∨
      (∃ u run, b.threads_create = .ok () ∧
        findLastUserMessage req.messages = some u ∧ u ≠ "" ∧
        b.messages_create = .ok () ∧
        b.runs_create_and_process = .ok run ∧
        run.status ≠ "failed" ∧
        b.messages_list = .error e)) :
    (create_chat_completion req b rid created).1 =
      .response { id := "chatcmpl-error-" ++ rid
                  created := created
                  model := req.model
                  choices := [{ index := 0
                                message := { role := "assistant"
                                             content := "I apologize, but an error occurred: " ++ e }
                                finish_reason := "stop" }]
                  usage := { prompt_tokens := 0, completion_tokens := 10
                             total_tokens := 10 } } := by
  rcases b with ⟨tc, mc, rc, ml⟩
  rcases hcase with h1 | ⟨u, h1, h2, h2a, h3⟩ | ⟨u, h1, h2, h2a, h3, h4⟩ |
    ⟨u, run, h1, h2, h2a, h3, h4, h5, h6⟩
  · subst h1
    simp [create_chat_completion, adapterErrorResponse]
  · subst h1; subst h3
    simp [create_chat_completion, h2, h2a, adapterErrorResponse]
  · subst h1; subst h3; subst h4
    simp [create_chat_completion, h2, h2a, adapterErrorResponse]
  · subst h1; subst h3; subst h4; subst h6
    simp [create_chat_completion, h2, h2a, h5, adapterErrorResponse]

/-- C8 witness: the degraded response at a backend whose run call raises. -/
theorem unexpected_exception_degraded_witness :
    (create_chat_completion reqUser backendRunRaises "A" 2).1 =
      .response { id := "chatcmpl-error-" ++ "A"
                  created := 2
                  model := reqUser.model
                  choices := [{ index := 0
                                message := { role := "assistant"
                                             content := "I apologize, but an error occurred: " ++ "socket closed" }
                                finish_reason := "stop" }]
                  usage := { prompt_tokens := 0, completion_tokens := 10
                             total_tokens := 10 } } :=
  unexpected_exception_degraded reqUser backendRunRaises "A" 2 "socket closed"
    (.inr (.inr (.inl ⟨"2+2?", rfl, rfl, by decide, rfl, rfl⟩)))

/-- C9, counterexample: a completed run whose thread holds one assistant
message carrying a single empty text fragment yields the answer
`"\n".join([""])`, i.e. the empty string — not the apology — so the
returned answer can be empty, contradicting "never empty". -/
theorem empty_answer_counterexample :
    (create_chat_completion reqUser backendEmptyFragment "A" 2).1 =
      .response (successResponse "m" "A" 2 "2+2?" "") ∧
    (successResponse "m" "A" 2 "2+2?" "").choices =
      [{ index := 0
         message := { role := "assistant", content := "" }
         finish_reason := "stop" }] ∧
    ("" : String) ≠ apologyNoResponse := ⟨rfl, rfl, by decide⟩

/-- C9 (amended): for every completed backend run (reached only with a
non-empty extracted user text, past the truthiness check), the returned
answer is the newline-join of the text contents of the assistant-authored
messages of the thread in listing (ascending) order, or the fixed apology
string when no assistant content is found; the answer is empty exactly
when a single assistant text fragment is extracted and that fragment is
the empty string (in particular it is non-empty whenever every extracted
fragment is). -/
theorem completed_run_answer (req : ChatCompletionRequest) (b : Backend)
    (rid : String) (created : Int) (u : String) (run : RunResult)
    (msgs : List ThreadMessage)
    (ht : b.threads_create = .ok ())
    (hu : findLastUserMessage req.messages = some u)
    (hu0 : u ≠ "")
    (hm : b.messages_create = .ok ())
    (hr : b.runs_create_and_process = .ok run)
    (hnf : run.status ≠ "failed")
    (hl : b.messages_list = .ok msgs) :
    (create_chat_completion req b rid created).1 =
      .response (successResponse req.model rid created u
        (assembleAnswer (extractAssistantFragments msgs))) ∧
    (extractAssistantFragments msgs ≠ [] →
      assembleAnswer (extractAssistantFragments msgs) =
        pyJoin "\n" (extractAssistantFragments msgs)) ∧
    (extractAssistantFragments msgs = [] →
      assembleAnswer (extractAssistantFragments msgs) = apologyNoResponse) ∧
    (assembleAnswer (extractAssistantFragments msgs) = "" ↔
      extractAssistantFragments msgs = [""]) := by
  refine ⟨?_, ?_, ?_, assembleAnswer_empty_iff (extractAssistantFragments msgs)⟩
  · rcases b with ⟨tc, mc, rc, ml⟩
    cases tc with
    | error _ => cases ht
    | ok _ =>
      cases mc with
      | error _ => cases hm
      | ok _ =>
        cases rc with
        | error _ => cases hr
        | ok run2 =>
          have hrun : run2 = run := by injection hr
          subst hrun
          cases ml with
          | error _ => cases hl
          | ok msgs2 =>
            have hmsgs : msgs2 = msgs := by injection hl
            subst hmsgs
            simp [create_chat_completion, hu, hu0, hnf]
  · intro h
    simp [assembleAnswer, h]
  · intro h
    rw [h]
    simp [assembleAnswer]

/-- C9 witness: the amended statement at the benign backend whose thread
holds one assistant message with text "4". -/
theorem completed_run_answer_witness :
    (create_chat_completion reqUser backendOk "A" 2).1 =
      .response (successResponse reqUser.model "A" 2 "2+2?"
        (assembleAnswer (extractAssistantFragments
          [{ role := "assistant", text_fragments := ["4"] }]))) ∧
    (extractAssistantFragments
        [{ role := "assistant", text_fragments := ["4"] }] ≠ [] →
      assembleAnswer (extractAssistantFragments
          [{ role := "assistant", text_fragments := ["4"] }]) =
        pyJoin "\n" (extractAssistantFragments
          [{ role := "assistant", text_fragments := ["4"] }])) ∧
    (extractAssistantFragments
        [{ role := "assistant", text_fragments := ["4"] }] = [] →
      assembleAnswer (extractAssistantFragments
          [{ role := "assistant", text_fragments := ["4"] }]) =
        apologyNoResponse) ∧
    (assembleAnswer (extractAssistantFragments
        [{ role := "assistant", text_fragments := ["4"] }]) = "" ↔
      extractAssistantFragments
        [{ role := "assistant", text_fragments := ["4"] }] = [""]) :=
  completed_run_answer reqUser backendOk "A" 2 "2+2?"
    { status := "completed", last_error := "" }
    [{ role := "assistant", text_fragments := ["4"] }]
    rfl rfl (by decide) rfl rfl (by decide) rfl

/-- C10 (confirmed): for every streaming request, the handler's HTTP result
is a 200 event-stream response no matter how the adapter behaves — the
`StreamingResponse` is committed before the generator runs — and every
HTTPException the adapter raises (including the missing-user-message error
that the non-streaming path surfaces as HTTP 400) is delivered in-band as
an "Error: <message>" chunk with finish_reason "stop" followed by the
terminator, never as an HTTP 4xx/5xx status. -/
theorem streaming_http200_inband_errors (req : ChatCompletionRequest)
    (b : Backend) (srid : String) (screated : Int) (arid : String)
    (acreated : Int)
    (hstream : req.stream = true) :
    (handle_chat_completion req b srid screated arid acreated).result =
      .streamResp 200
        (create_streaming_response req b srid screated arid acreated) ∧
    ∀ status detail,
      (create_chat_completion req b arid acreated).1 =
        .httpError status detail →
      create_streaming_response req b srid screated arid acreated =
        [.chunk (errorChunk srid req.model screated
            (toString status ++ ": " ++ detail)),
         .done] := by
  constructor
  · simp [handle_chat_completion, hstream]
  · intro status detail h
    unfold create_streaming_response
    rw [h]
    rfl

/-- C10 witness: the user-less streaming request gets a 200 stream whose
only content chunk is the in-band 400 error, then the terminator. -/
theorem streaming_http200_inband_errors_witness :
    (handle_chat_completion reqNoUserStream backendOk "S" 1 "A" 2).result =
      .streamResp 200
        (create_streaming_response reqNoUserStream backendOk "S" 1 "A" 2) ∧
    create_streaming_response reqNoUserStream backendOk "S" 1 "A" 2 =
      [.chunk (errorChunk "S" reqNoUserStream.model 1
          (toString 400 ++ ": " ++ "No user message found")),
       .done] :=
  ⟨(streaming_http200_inband_errors reqNoUserStream backendOk "S" 1 "A" 2 rfl).1,
   (streaming_http200_inband_errors reqNoUserStream backendOk "S" 1 "A" 2 rfl).2
     400 "No user message found" rfl⟩

end FoundryAdapter
